import Mathlib

/-!
Shallow embedding of `src/main.py`, the supervisor loop of a Raspberry Pico W
sensor node: boot-time MQTT connect (reset on failure), an infinite loop that
publishes a `telemetry` record and a `measurement` record and then waits for
`PUBLISH_INTERVAL` one-second ticks, each tick probing the MQTT broker with a
TCP connect and feeding the hardware watchdog only when the probe succeeds.

External collaborators (the `socket`, `umqtt`, `machine`, `dht20` libraries)
are modelled as oracle inputs: each probe attempt, publish attempt and the
boot connect attempt get their outcome from the environment.  Floating-point
sensor values are modelled in fixed point as integer tenths, matching the
one-decimal rendering (`round(x, 1)` / `f-string :.1f`) the program uses.
-/

namespace SensorNode

/-- Outcome of the socket sequence in `watchdog_task`
(`getaddrinfo`; `socket`; `connect`; `close`), lines 61-66 of `main.py`:
either every call completes (the broker is reachable), or some call raises an
`OSError` (DNS failure, connection refused, timeout), or some call raises an
exception that is not an `OSError` (e.g. `MemoryError`, or an `IndexError`
from an empty `getaddrinfo` result). -/
inductive ProbeResult where
  | reachable : ProbeResult
  | osError : ProbeResult
  | fatalExn : ProbeResult
  deriving Repr, DecidableEq

/-- Externally visible actions of the program, in program order. -/
inductive Event where
  | sleep : Event
  | probeE : ProbeResult → Event
  | feed : Event
  | publishE : String → Event
  | disconnectE : Event
  | resetE : Event
  deriving Repr, DecidableEq

/-- `true` exactly on publish-call events. -/
def isPublishB : Event → Bool
  | Event.publishE _ => true
  | _ => false

/-- `true` exactly on probe events. -/
def isProbeB : Event → Bool
  | Event.probeE _ => true
  | _ => false

/-- `watchdog_task()` (main.py lines 56-74): probe the broker with a TCP
connect; on success feed the watchdog (`wdt.feed()`); an `OSError` is caught
by the `except OSError` clause and only logged; any other exception is not
caught and propagates to the caller.  Returns the emitted events and whether
an exception escaped. -/
def watchdog_task : ProbeResult → List Event × Bool
  | ProbeResult.reachable => ([Event.probeE ProbeResult.reachable, Event.feed], false)
  | ProbeResult.osError => ([Event.probeE ProbeResult.osError], false)
  | ProbeResult.fatalExn => ([Event.probeE ProbeResult.fatalExn], true)

/-- The wait cycle (main.py lines 204-216): `interval = 0;
while interval < PUBLISH_INTERVAL: time.sleep(1); watchdog_task();
interval += 1`.  `probes i` is the outcome of the probe on tick `i` of this
cycle; the second component records whether an uncaught exception escaped
(aborting the loop early). -/
def wait_loop (probes : Nat → ProbeResult) : Nat → List Event × Bool
  | 0 => ([], false)
  | Nat.succ n =>
    let w := watchdog_task (probes 0)
    if w.2 then (Event.sleep :: w.1, true)
    else
      let rest := wait_loop (fun i => probes (i + 1)) n
      (Event.sleep :: w.1 ++ rest.1, rest.2)

/-! ## Message formatting (fixed point, one decimal)

Sensor and internal-temperature values are carried as integer tenths; the
program renders them with one fractional digit (`f"...:.1f"` for the
measurement fields, `str(round(x, 1))` for the internal temperature). -/

/-- The decimal digit character for `d < 10`. -/
def digitChar (d : Nat) : Char := Char.ofNat (48 + d)

/-- Decimal digit string of `n`, most significant first, computed with
enough fuel (any fuel above `n` suffices, since the number of digits of `n`
is at most `n + 1`). -/
def natDigitsAux : Nat → Nat → List Char
  | 0, _ => []
  | Nat.succ fuel, n =>
    if n < 10 then [digitChar n]
    else natDigitsAux fuel (n / 10) ++ [digitChar (n % 10)]

/-- The decimal digit string of a natural number, most significant first
(`"0"` for zero), as rendered by Python's string conversion. -/
def natDigits (n : Nat) : List Char := natDigitsAux (n + 1) n

/-- Rendering of a value of `z` tenths with exactly one fractional digit,
as Python renders the corresponding one-decimal float: optional minus sign,
integer digits, a dot, one digit. -/
def fmt1Chars (z : Int) : List Char :=
  (if z < 0 then ['-'] else []) ++ natDigits (z.natAbs / 10) ++
    ('.' :: [digitChar (z.natAbs % 10)])

/-- `fmt1Chars` as a string. -/
def fmt1 (z : Int) : String := String.mk (fmt1Chars z)

/-! ## Parsing one-decimal values back (for the round-trip property) -/

/-- Decimal digit test. -/
def isDigitChar (c : Char) : Bool := 48 ≤ c.toNat && c.toNat ≤ 57

/-- Consume a maximal run of decimal digits, folding them onto `acc`. -/
def parseDigitsAux : List Char → Nat → Nat × List Char
  | c :: cs, acc =>
    if isDigitChar c then parseDigitsAux cs (acc * 10 + (c.toNat - 48))
    else (acc, c :: cs)
  | [], acc => (acc, [])

/-- The fold `parseDigitsAux` performs on a digit run. -/
def valAux (acc : Nat) (ds : List Char) : Nat :=
  ds.foldl (fun a c => a * 10 + (c.toNat - 48)) acc

/-- Strip a leading minus sign. -/
def splitSign : List Char → Bool × List Char
  | c :: cs => if c = '-' then (true, cs) else (false, c :: cs)
  | [] => (false, [])

/-- Parse an unsigned one-decimal numeral (at least one integer digit, a
dot, exactly one fractional digit) into tenths, returning the remaining
characters. -/
def parseUnsigned1 : List Char → Option (Nat × List Char)
  | c :: cs =>
    if isDigitChar c then
      match parseDigitsAux (c :: cs) 0 with
      | (ip, dot :: d :: rest2) =>
        if dot = '.' then
          if isDigitChar d then some (ip * 10 + (d.toNat - 48), rest2) else none
        else none
      | _ => none
    else none
  | [] => none

/-- Parse a one-decimal numeral (optional minus sign, at least one integer
digit, a dot, exactly one fractional digit) into tenths, returning the
remaining characters. -/
def parseFixed1 (cs : List Char) : Option (Int × List Char) :=
  match splitSign cs with
  | (neg, cs1) =>
    match parseUnsigned1 cs1 with
    | some (m, rest) => some (if neg then -(Int.ofNat m) else Int.ofNat m, rest)
    | none => none

/-- Strip an expected literal prefix. -/
def stripPrefixChars : List Char → List Char → Option (List Char)
  | [], cs => some cs
  | p :: ps, c :: cs => if c = p then stripPrefixChars ps cs else none
  | _ :: _, [] => none

/-- Parse a measurement field set
`temperature=<t>,humidity=<rh>` back into tenths. -/
def parse_measurement (s : String) : Option (Int × Int) :=
  match stripPrefixChars ("temperature=".data) s.data with
  | some cs1 =>
    match parseFixed1 cs1 with
    | some tv =>
      match stripPrefixChars (",humidity=".data) tv.2 with
      | some cs2 =>
        match parseFixed1 cs2 with
        | some hv =>
          match hv.2 with
          | [] => some (tv.1, hv.1)
          | _ :: _ => none
        | none => none
      | none => none
    | none => none
  | none => none

/-! ## Configuration, environment and the publish cycle -/

/-- The configuration snapshot from `config.py` that the modelled code
reads (broker/wifi credentials and log level do not affect the modelled
events beyond the probe/publish outcomes supplied by the environment). -/
structure Config where
  mqtt_client_id : String
  device_type : String
  version : String
  publish_interval : Nat
  sensor_in_use : Bool

/-- A sensor reading in tenths: temperature (tenths of a degree Celsius)
and relative humidity (tenths of a percent). -/
structure Measurements where
  t : Int
  rh : Int
  deriving Repr, DecidableEq

/-- Whether a `mqtt_client.publish` call succeeds or raises. -/
inductive PubOutcome where
  | ok : PubOutcome
  | fail : PubOutcome
  deriving Repr, DecidableEq

/-- Environment oracle for one iteration of the main loop: the sensor
reading, the `ReadTemperature()` result (tenths), the `CalcUptime` string,
the outcome of each of the two publish calls, and the probe outcomes of the
wait cycle's ticks. -/
structure CycleEnv where
  sensorReading : Measurements
  internal_temp : Int
  uptime : String
  pub1 : PubOutcome
  pub2 : PubOutcome
  probes : Nat → ProbeResult

/-- The message string built by `mqtt_publish` (main.py line 152):
`f"{category},deviceId=...,deviceType=...,deviceVersion=... {message}"`. -/
def mqtt_message (cfg : Config) (category message : String) : String :=
  category ++ ",deviceId=" ++ cfg.mqtt_client_id ++ ",deviceType=" ++ cfg.device_type ++
    ",deviceVersion=" ++ cfg.version ++ " " ++ message

/-- Parse the temperature and humidity back out of a full published
measurement message for the given configuration. -/
def parse_published_measurement (cfg : Config) (s : String) : Option (Int × Int) :=
  match stripPrefixChars ((mqtt_message cfg "measurement" "").data) s.data with
  | some cs => parse_measurement (String.mk cs)
  | none => none

/-- `mqtt_publish` (main.py lines 149-160): format the message and call
`mqtt_client.publish`.  If that call raises, the handler logs and calls
`sys.exit()`, which raises `SystemExit` to the caller (second component
`true`); `SystemExit` is not an `Exception`, so it is not re-caught by the
main loop's `except Exception` clause. -/
def mqtt_publish (cfg : Config) (category message : String) (outcome : PubOutcome) :
    List Event × Bool :=
  ([Event.publishE (mqtt_message cfg category message)],
    match outcome with
    | PubOutcome.ok => false
    | PubOutcome.fail => true)

/-- The telemetry field set (main.py line 190): quoted uptime, bare
internal temperature, quoted MAC and IP addresses. -/
def telemetry_message (uptime : String) (internal_temp : Int) (mac ip : String) : String :=
  "uptime=\"" ++ uptime ++ "\",internal_temperature=" ++ fmt1 internal_temp ++
    ",MAC_address=\"" ++ mac ++ "\",IP_address=\"" ++ ip ++ "\""

/-- The measurement field set (main.py line 202):
`f'temperature={temp_C:.1f},humidity={humidity:.1f}'`. -/
def measurement_message (t rh : Int) : String :=
  "temperature=" ++ fmt1 t ++ ",humidity=" ++ fmt1 rh

/-- The simulated reading used when `config.SENSOR_IN_USE` is false
(main.py lines 181-184): t = 21.0 °C, rh = 50.0 %. -/
def simulatedReading : Measurements := Measurements.mk 210 500

/-- One iteration of the main `while True` loop (main.py lines 172-218):
read or simulate the sensor, publish the telemetry record, publish the
measurement record, then run the wait cycle.  An exception raised by either
publish (`SystemExit` from `sys.exit`) or escaping the wait cycle aborts the
iteration (second component `true`). -/
def cycle (cfg : Config) (mac ip : String) (env : CycleEnv) : List Event × Bool :=
  let measurements := if cfg.sensor_in_use then env.sensorReading else simulatedReading
  let tmsg := telemetry_message env.uptime env.internal_temp mac ip
  let p1 := mqtt_publish cfg "telemetry" tmsg env.pub1
  if p1.2 then (p1.1, true)
  else
    let mmsg := measurement_message measurements.t measurements.rh
    let p2 := mqtt_publish cfg "measurement" mmsg env.pub2
    if p2.2 then (p1.1 ++ p2.1, true)
    else
      let w := wait_loop env.probes cfg.publish_interval
      (p1.1 ++ p2.1 ++ w.1, w.2)

/-- `fuel` iterations of the infinite main loop; stops early when an
iteration raises. -/
def main_loop (cfg : Config) (mac ip : String) (envs : Nat → CycleEnv) :
    Nat → List Event × Bool
  | 0 => ([], false)
  | Nat.succ k =>
    let c := cycle cfg mac ip (envs 0)
    if c.2 then (c.1, true)
    else
      let rest := main_loop cfg mac ip (fun i => envs (i + 1)) k
      (c.1 ++ rest.1, rest.2)

/-- The program after WiFi setup (main.py lines 134-224): try to connect to
the broker — on failure print and `machine.reset()` (which never returns);
on success run the main loop inside `try ... except Exception ... finally`:
when an exception escapes the loop the `finally` block runs
`mqtt_client.disconnect()` (modelled per the spec as best-effort, completing
without raising) and then `machine.reset()`.  With remaining fuel the loop
is still running and the `finally` block has not been reached. -/
def run_program (cfg : Config) (connect_ok : Bool) (mac ip : String)
    (envs : Nat → CycleEnv) (fuel : Nat) : List Event :=
  if connect_ok then
    let r := main_loop cfg mac ip envs fuel
    if r.2 then r.1 ++ [Event.disconnectE, Event.resetE] else r.1
  else
    [Event.resetE]

/-! ## Concrete inputs used by the witnesses -/

/-- A concrete configuration snapshot. -/
def exampleConfig : Config := Config.mk "solar1" "picow" "1.4" 2 false

/-- A concrete cycle environment where everything succeeds. -/
def exampleEnvOk : CycleEnv :=
  CycleEnv.mk (Measurements.mk 215 487) 271 "0:00:01:00"
    PubOutcome.ok PubOutcome.ok (fun _ => ProbeResult.reachable)

/-- Same formatting inputs as `exampleEnvOk` but a failing measurement
publish and Unreachable probes. -/
def exampleEnvOk2 : CycleEnv :=
  CycleEnv.mk (Measurements.mk 215 487) 271 "0:00:01:00"
    PubOutcome.ok PubOutcome.fail (fun _ => ProbeResult.osError)

/-- A concrete cycle environment whose telemetry publish call raises. -/
def exampleEnvPubFail : CycleEnv :=
  CycleEnv.mk (Measurements.mk 215 487) 271 "0:00:01:00"
    PubOutcome.fail PubOutcome.ok (fun _ => ProbeResult.reachable)

/-! ## The wait cycle: ticks, probes and watchdog feeds -/

/-- If no probe raises a non-`OSError` exception, the wait loop completes
normally and runs exactly `N` ticks: `N` sleeps and `N` probes. -/
theorem wait_loop_counts :
    ∀ (N : Nat) (probes : Nat → ProbeResult), (∀ i, probes i ≠ ProbeResult.fatalExn) →
      (wait_loop probes N).2 = false ∧
      (wait_loop probes N).1.count Event.sleep = N ∧
      (wait_loop probes N).1.countP isProbeB = N := by
  intro N
  induction N with
  | zero =>
    intro probes _
    simp [wait_loop]
  | succ n ih =>
    intro probes h
    rcases ih (fun i => probes (i + 1)) (fun i => h (i + 1)) with ⟨hr, hs, hp⟩
    cases hp0 : probes 0 with
    | reachable =>
      simp [wait_loop, watchdog_task, hp0, hr, List.count_cons, List.countP_cons,
        List.count_append, List.countP_append, isProbeB] at hs hp ⊢
      omega
    | osError =>
      simp [wait_loop, watchdog_task, hp0, hr, List.count_cons, List.countP_cons,
        List.count_append, List.countP_append, isProbeB] at hs hp ⊢
      omega
    | fatalExn => exact absurd hp0 (h 0)

/-- Across any wait cycle, the number of watchdog feeds equals the number of
probes that reported Reachable, and never exceeds the number of probes. -/
theorem wait_loop_feed_count :
    ∀ (N : Nat) (probes : Nat → ProbeResult),
      (wait_loop probes N).1.count Event.feed =
        (wait_loop probes N).1.count (Event.probeE ProbeResult.reachable) ∧
      (wait_loop probes N).1.count Event.feed ≤ (wait_loop probes N).1.countP isProbeB := by
  intro N
  induction N with
  | zero =>
    intro probes
    simp [wait_loop]
  | succ n ih =>
    intro probes
    rcases ih (fun i => probes (i + 1)) with ⟨he, hle⟩
    cases hp0 : probes 0 with
    | reachable =>
      simp [wait_loop, watchdog_task, hp0, List.count_cons, List.countP_cons,
        List.count_append, List.countP_append, isProbeB] at he hle ⊢
      omega
    | osError =>
      simp [wait_loop, watchdog_task, hp0, List.count_cons, List.countP_cons,
        List.count_append, List.countP_append, isProbeB] at he hle ⊢
      omega
    | fatalExn =>
      simp [wait_loop, watchdog_task, hp0, List.count_cons, List.countP_cons, isProbeB]

/-- If no probe raises a non-`OSError` exception, the wait cycle is exactly
the concatenation, tick by tick, of a sleep followed by the probe's events:
no tick is skipped and none is added. -/
theorem wait_loop_eq_flatten :
    ∀ (N : Nat) (probes : Nat → ProbeResult), (∀ i, probes i ≠ ProbeResult.fatalExn) →
      (wait_loop probes N).1 =
        ((List.range N).map (fun i => Event.sleep :: (watchdog_task (probes i)).1)).flatten := by
  intro N
  induction N with
  | zero =>
    intro probes _
    simp [wait_loop]
  | succ n ih =>
    intro probes h
    have hrec := ih (fun i => probes (i + 1)) (fun i => h (i + 1))
    rw [List.range_succ_eq_map]
    cases hp0 : probes 0 with
    | reachable =>
      simp only [wait_loop, watchdog_task, hp0, List.map_cons, List.map_map,
        List.flatten_cons]
      simp only [watchdog_task] at hrec
      simp [hrec, Function.comp_def, Nat.succ_eq_add_one, Nat.add_comm]
    | osError =>
      simp only [wait_loop, watchdog_task, hp0, List.map_cons, List.map_map,
        List.flatten_cons]
      simp only [watchdog_task] at hrec
      simp [hrec, Function.comp_def, Nat.succ_eq_add_one, Nat.add_comm]
    | fatalExn => exact absurd hp0 (h 0)

/-- C1: on every tick of the wait loop, the watchdog is fed on that tick if
and only if that tick's probe reported Reachable; the probe's events contain
at most one feed; and over any wait cycle the number of feeds equals the
number of Reachable probe reports (so the watchdog is never fed on an
Unreachable tick and never fed twice for one probe). -/
theorem feed_iff_reachable :
    (∀ r : ProbeResult,
      (Event.feed ∈ (watchdog_task r).1 ↔ r = ProbeResult.reachable) ∧
      (watchdog_task r).1.count Event.feed ≤ 1) ∧
    ∀ (probes : Nat → ProbeResult) (N : Nat),
      (wait_loop probes N).1.count Event.feed =
        (wait_loop probes N).1.count (Event.probeE ProbeResult.reachable) ∧
      (wait_loop probes N).1.count Event.feed ≤ (wait_loop probes N).1.countP isProbeB := by
  constructor
  · intro r
    cases r <;> simp [watchdog_task]
  · intro probes N
    exact wait_loop_feed_count N probes

/-- C2: for every publish interval `N ≥ 1`, the wait cycle runs exactly `N`
ticks — `N` sleeps and `N` probes, each tick a sleep followed by its probe —
and no sequence of Unreachable (`OSError`) probe results makes it exit early
or skip a tick. -/
theorem wait_loop_exactly_N_ticks (N : Nat) (probes : Nat → ProbeResult)
    (_hN : 1 ≤ N) (hnf : ∀ i, probes i ≠ ProbeResult.fatalExn) :
    (wait_loop probes N).2 = false ∧
    (wait_loop probes N).1.count Event.sleep = N ∧
    (wait_loop probes N).1.countP isProbeB = N ∧
    (wait_loop probes N).1 =
      ((List.range N).map (fun i => Event.sleep :: (watchdog_task (probes i)).1)).flatten := by
  rcases wait_loop_counts N probes hnf with ⟨h1, h2, h3⟩
  exact ⟨h1, h2, h3, wait_loop_eq_flatten N probes hnf⟩

/-- Witness for C2 at `N = 3` with every probe Unreachable. -/
theorem wait_loop_exactly_N_ticks_witness :
    (wait_loop (fun _ => ProbeResult.osError) 3).2 = false ∧
    (wait_loop (fun _ => ProbeResult.osError) 3).1.count Event.sleep = 3 := by
  have h := wait_loop_exactly_N_ticks 3 (fun _ => ProbeResult.osError)
    (by decide) (fun i => by simp)
  exact ⟨h.1, h.2.1⟩

/-- C4 counterexample: the claim says every error raised while probing is
absorbed locally, but `watchdog_task` only catches `OSError`; a probe attempt
that raises a non-`OSError` exception escapes to the caller
(second component `true`). -/
theorem watchdog_task_raises_on_fatal :
    (watchdog_task ProbeResult.fatalExn).2 = true := by decide

/-- C4 (amended): every `OSError` raised while probing (DNS failure,
connection refused, timeout) is absorbed by the `except OSError` clause,
treated as Unreachable (no watchdog feed), and the wait loop continues to
completion; only a non-`OSError` exception can escape. -/
theorem watchdog_task_absorbs_oserror :
    ((watchdog_task ProbeResult.osError).2 = false ∧
      Event.feed ∉ (watchdog_task ProbeResult.osError).1) ∧
    ∀ (probes : Nat → ProbeResult) (N : Nat), (∀ i, probes i ≠ ProbeResult.fatalExn) →
      (wait_loop probes N).2 = false := by
  refine ⟨by simp [watchdog_task], ?_⟩
  intro probes N h
  exact (wait_loop_counts N probes h).1

/-- Witness for the amended C4: a cycle of two Unreachable (`OSError`) probes
completes without raising. -/
theorem watchdog_task_absorbs_oserror_witness :
    (wait_loop (fun _ => ProbeResult.osError) 2).2 = false :=
  watchdog_task_absorbs_oserror.2 (fun _ => ProbeResult.osError) 2
    (fun i => by intro h; exact ProbeResult.noConfusion h)

/-- C5 counterexample: the claim says every tick of the wait cycle makes at
least one feed; a one-tick wait cycle whose probe reports Unreachable
executes its probe but makes no feed at all. -/
theorem tick_without_feed :
    (wait_loop (fun _ => ProbeResult.osError) 1).1.countP isProbeB = 1 ∧
    ¬ (1 ≤ (wait_loop (fun _ => ProbeResult.osError) 1).1.count Event.feed) := by decide

/-- C5 (amended): each tick of the wait cycle makes at most one feed —
exactly one when its probe reports Reachable and none when it reports
Unreachable — so a wait cycle of `N` ticks makes at most `N` feeds, and
feeds occur strictly more often than the watchdog timeout only while the
broker stays reachable. -/
theorem feed_at_most_once_per_tick :
    (∀ r : ProbeResult,
      (watchdog_task r).1.count Event.feed =
        if r = ProbeResult.reachable then 1 else 0) ∧
    ∀ (probes : Nat → ProbeResult) (N : Nat),
      (wait_loop probes N).1.count Event.feed ≤ N := by
  constructor
  · intro r
    cases r <;> simp [watchdog_task]
  · intro probes N
    induction N generalizing probes with
    | zero => simp [wait_loop]
    | succ n ih =>
      have hrec := ih (fun i => probes (i + 1))
      cases hp0 : probes 0 with
      | reachable =>
        simp only [wait_loop, watchdog_task, hp0, List.count_cons, List.count_append]
        simp only [watchdog_task] at hrec ⊢
        simp [List.count_cons]
        omega
      | osError =>
        simp only [wait_loop, watchdog_task, hp0, List.count_cons, List.count_append]
        simp only [watchdog_task] at hrec ⊢
        simp [List.count_cons]
        omega
      | fatalExn =>
        simp [wait_loop, watchdog_task, hp0, List.count_cons]

/-! ## Trace lemmas for the publish cycle -/

/-- The wait cycle makes no publish calls. -/
theorem wait_loop_no_publish :
    ∀ (N : Nat) (probes : Nat → ProbeResult),
      List.filter isPublishB (wait_loop probes N).1 = [] := by
  intro N
  induction N with
  | zero =>
    intro probes
    simp [wait_loop]
  | succ n ih =>
    intro probes
    cases hp0 : probes 0 <;>
      simp [wait_loop, watchdog_task, hp0, isPublishB, ih]

/-- The wait cycle issues no reset request. -/
theorem wait_loop_no_reset :
    ∀ (N : Nat) (probes : Nat → ProbeResult),
      Event.resetE ∉ (wait_loop probes N).1 := by
  intro N
  induction N with
  | zero =>
    intro probes
    simp [wait_loop]
  | succ n ih =>
    intro probes
    cases hp0 : probes 0 <;>
      simp [wait_loop, watchdog_task, hp0, ih]

/-- A loop iteration issues no reset request of its own. -/
theorem cycle_no_reset (cfg : Config) (mac ip : String) (env : CycleEnv) :
    Event.resetE ∉ (cycle cfg mac ip env).1 := by
  cases h1 : env.pub1 <;> cases h2 : env.pub2 <;>
    simp [cycle, mqtt_publish, h1, h2, wait_loop_no_reset]

/-- The main loop issues no reset request of its own (resets come only from
the `finally` block or the boot connect handler). -/
theorem main_loop_no_reset :
    ∀ (fuel : Nat) (cfg : Config) (mac ip : String) (envs : Nat → CycleEnv),
      Event.resetE ∉ (main_loop cfg mac ip envs fuel).1 := by
  intro fuel
  induction fuel with
  | zero =>
    intro cfg mac ip envs
    simp [main_loop]
  | succ k ih =>
    intro cfg mac ip envs
    by_cases hc : (cycle cfg mac ip (envs 0)).2
    · simp [main_loop, hc, cycle_no_reset]
    · simp [main_loop, hc, cycle_no_reset, ih]

/-- The publish calls of one loop iteration whose telemetry publish call
does not raise: the telemetry message first, the measurement message second,
and nothing else. -/
theorem cycle_publish_events (cfg : Config) (mac ip : String) (env : CycleEnv)
    (h1 : env.pub1 = PubOutcome.ok) :
    List.filter isPublishB (cycle cfg mac ip env).1 =
      [Event.publishE (mqtt_message cfg "telemetry"
          (telemetry_message env.uptime env.internal_temp mac ip)),
       Event.publishE (mqtt_message cfg "measurement"
          (measurement_message
            (if cfg.sensor_in_use then env.sensorReading else simulatedReading).t
            (if cfg.sensor_in_use then env.sensorReading else simulatedReading).rh))] := by
  cases h2 : env.pub2 <;>
    simp [cycle, mqtt_publish, h1, h2, isPublishB, wait_loop_no_publish]

/-! ## Formatting and parsing lemmas (for the round-trip property) -/

/-- `digitChar` hits the ASCII digit codes. -/
theorem digitChar_toNat : ∀ d : Nat, d < 10 → (digitChar d).toNat = 48 + d := by decide

/-- `digitChar` produces digit characters. -/
theorem isDigitChar_digitChar : ∀ d : Nat, d < 10 → isDigitChar (digitChar d) = true := by
  decide

/-- A dot is not a digit. -/
theorem isDigitChar_dot : isDigitChar '.' = false := by decide

/-- A digit character is not a minus sign. -/
theorem digit_ne_minus (c : Char) (h : isDigitChar c = true) : ¬ (c = '-') := by
  intro hc
  subst hc
  simp [isDigitChar] at h

/-- With enough fuel the digit string is never empty. -/
theorem natDigitsAux_ne_nil : ∀ (fuel n : Nat), n < fuel → natDigitsAux fuel n ≠ [] := by
  intro fuel
  induction fuel with
  | zero => intro n h; omega
  | succ f _ =>
    intro n _
    by_cases h10 : n < 10
    · simp [natDigitsAux, h10]
    · simp only [natDigitsAux, if_neg h10]
      simp

/-- With enough fuel every character of the digit string is a digit. -/
theorem natDigitsAux_digits : ∀ (fuel n : Nat), n < fuel →
    ∀ c ∈ natDigitsAux fuel n, isDigitChar c = true := by
  intro fuel
  induction fuel with
  | zero => intro n h; omega
  | succ f ih =>
    intro n h c hc
    by_cases h10 : n < 10
    · simp only [natDigitsAux, if_pos h10, List.mem_singleton] at hc
      subst hc
      exact isDigitChar_digitChar n h10
    · simp only [natDigitsAux, if_neg h10, List.mem_append, List.mem_singleton] at hc
      rcases hc with hc | hc
      · refine ih (n / 10) ?_ c hc
        have hn : n / 10 < n := Nat.div_lt_self (by omega) (by omega)
        omega
      · subst hc
        exact isDigitChar_digitChar (n % 10) (Nat.mod_lt n (by omega))

/-- Folding the digit string of `n` onto an accumulator recovers `n`. -/
theorem valAux_natDigitsAux : ∀ (fuel n acc : Nat), n < fuel →
    valAux acc (natDigitsAux fuel n) =
      acc * 10 ^ (natDigitsAux fuel n).length + n := by
  intro fuel
  induction fuel with
  | zero => intro n acc h; omega
  | succ f ih =>
    intro n acc h
    by_cases h10 : n < 10
    · simp [natDigitsAux, h10, valAux, digitChar_toNat n h10]
    · have hn : n / 10 < f := by
        have := Nat.div_lt_self (n := n) (by omega) (by omega : 1 < 10)
        omega
      simp only [natDigitsAux, if_neg h10]
      rw [valAux, List.foldl_append]
      have hv := ih (n / 10) acc hn
      rw [valAux] at hv
      rw [hv]
      simp only [List.foldl_cons, List.foldl_nil, List.length_append, List.length_singleton]
      rw [digitChar_toNat (n % 10) (Nat.mod_lt n (by omega))]
      rw [pow_succ]
      have hmod : 48 + n % 10 - 48 = n % 10 := by omega
      rw [hmod]
      have hh : (acc * 10 ^ (natDigitsAux f (n / 10)).length + n / 10) * 10 =
          acc * (10 ^ (natDigitsAux f (n / 10)).length * 10) + n / 10 * 10 := by ring
      rw [hh]
      omega

/-- `parseDigitsAux` consumes a whole run of digit characters. -/
theorem parseDigitsAux_digit_run : ∀ (ds rest : List Char) (acc : Nat),
    (∀ c ∈ ds, isDigitChar c = true) →
    parseDigitsAux (ds ++ rest) acc = parseDigitsAux rest (valAux acc ds) := by
  intro ds
  induction ds with
  | nil => intro rest acc _; simp [valAux]
  | cons c cs ih =>
    intro rest acc h
    have hc : isDigitChar c = true := h c (by simp)
    simp only [List.cons_append, parseDigitsAux, hc, if_pos, List.append_eq]
    rw [ih rest _ (fun x hx => h x (by simp [hx]))]
    simp [valAux]

/-- `parseDigitsAux` stops at a non-digit (or the end of input). -/
theorem parseDigitsAux_stop : ∀ (cs : List Char) (acc : Nat),
    (∀ c, cs.head? = some c → isDigitChar c = false) →
    parseDigitsAux cs acc = (acc, cs) := by
  intro cs acc h
  cases cs with
  | nil => simp [parseDigitsAux]
  | cons c rest =>
    have := h c rfl
    simp [parseDigitsAux, this]

/-- The digit string of `k` is a nonempty list of digit characters whose
fold recovers `k`. -/
theorem natDigits_cons : ∀ k : Nat, ∃ c cs, natDigits k = c :: cs ∧
    isDigitChar c = true ∧ (∀ x ∈ cs, isDigitChar x = true) ∧
    valAux 0 (c :: cs) = k := by
  intro k
  have hlt : k < k + 1 := Nat.lt_succ_self k
  cases hnd : natDigitsAux (k + 1) k with
  | nil => exact absurd hnd (natDigitsAux_ne_nil _ _ hlt)
  | cons c cs =>
    have hdig : ∀ x ∈ c :: cs, isDigitChar x = true := by
      rw [← hnd]
      exact natDigitsAux_digits _ _ hlt
    refine ⟨c, cs, ?_, hdig c (by simp), fun x hx => hdig x (by simp [hx]), ?_⟩
    · rw [natDigits, hnd]
    · have hv := valAux_natDigitsAux (k + 1) k 0 hlt
      rw [hnd] at hv
      simpa using hv

/-- `parseUnsigned1` inverts the digits-dot-digit rendering. -/
theorem parseUnsigned1_digits (k d : Nat) (rest : List Char) (hd : d < 10) :
    parseUnsigned1 (natDigits k ++ ('.' :: digitChar d :: rest)) =
      some (k * 10 + d, rest) := by
  obtain ⟨c, cs, hcs, hcdig, hcsdig, hval⟩ := natDigits_cons k
  have hdigits : ∀ x ∈ c :: cs, isDigitChar x = true := by
    intro x hx
    rcases List.mem_cons.mp hx with hx | hx
    · subst hx; exact hcdig
    · exact hcsdig x hx
  have hrun : parseDigitsAux (c :: (cs ++ ('.' :: digitChar d :: rest))) 0 =
      (k, '.' :: digitChar d :: rest) := by
    have h1 := parseDigitsAux_digit_run (c :: cs) ('.' :: digitChar d :: rest) 0 hdigits
    rw [List.cons_append] at h1
    rw [h1, parseDigitsAux_stop _ _ ?_, hval]
    intro x hx
    simp only [List.head?_cons, Option.some_inj] at hx
    subst hx
    exact isDigitChar_dot
  rw [hcs, List.cons_append]
  simp only [parseUnsigned1, hcdig, if_pos, hrun]
  simp only [if_pos rfl, isDigitChar_digitChar d hd, if_pos]
  rw [digitChar_toNat d hd]
  congr 2
  omega

/-- A rendered numeral never begins with a minus sign unless negative. -/
theorem splitSign_natDigits (k : Nat) (rest : List Char) :
    splitSign (natDigits k ++ rest) = (false, natDigits k ++ rest) := by
  obtain ⟨c, cs, hcs, hcdig, _, _⟩ := natDigits_cons k
  rw [hcs, List.cons_append]
  simp [splitSign, digit_ne_minus c hcdig]

/-- `parseFixed1` inverts `fmt1Chars`, whatever follows the numeral. -/
theorem parseFixed1_fmt1Chars (z : Int) (rest : List Char) :
    parseFixed1 (fmt1Chars z ++ rest) = some (z, rest) := by
  have hmod : z.natAbs % 10 < 10 := Nat.mod_lt _ (by omega)
  have hu := parseUnsigned1_digits (z.natAbs / 10) (z.natAbs % 10) rest hmod
  have habs : z.natAbs / 10 * 10 + z.natAbs % 10 = z.natAbs := by omega
  rw [habs] at hu
  by_cases hz : z < 0
  · have hfmt : fmt1Chars z ++ rest =
        '-' :: (natDigits (z.natAbs / 10) ++ ('.' :: digitChar (z.natAbs % 10) :: rest)) := by
      simp [fmt1Chars, hz]
    have hsp : splitSign ('-' ::
        (natDigits (z.natAbs / 10) ++ ('.' :: digitChar (z.natAbs % 10) :: rest))) =
        (true, natDigits (z.natAbs / 10) ++ ('.' :: digitChar (z.natAbs % 10) :: rest)) := by
      simp [splitSign]
    rw [hfmt]
    simp only [parseFixed1, hsp]
    rw [hu]
    have hzz : -(Int.ofNat z.natAbs) = z := by
      simp only [Int.ofNat_eq_natCast]
      omega
    show some (-(Int.ofNat z.natAbs), rest) = some (z, rest)
    rw [hzz]
  · have hfmt : fmt1Chars z ++ rest =
        natDigits (z.natAbs / 10) ++ ('.' :: digitChar (z.natAbs % 10) :: rest) := by
      simp [fmt1Chars, hz]
    rw [hfmt]
    simp only [parseFixed1, splitSign_natDigits]
    rw [hu]
    have hzz : Int.ofNat z.natAbs = z := by
      simp only [Int.ofNat_eq_natCast]
      omega
    show some (Int.ofNat z.natAbs, rest) = some (z, rest)
    rw [hzz]

/-- Stripping a literal prefix from itself plus a remainder. -/
theorem stripPrefixChars_append : ∀ (p rest : List Char),
    stripPrefixChars p (p ++ rest) = some rest := by
  intro p
  induction p with
  | nil => intro rest; simp [stripPrefixChars]
  | cons c cs ih => intro rest; simp [stripPrefixChars, ih]

/-- String concatenation concatenates the underlying character lists. -/
theorem data_append (a b : String) : (a ++ b).data = a.data ++ b.data := rfl

/-- The measurement field set parses back to its tenths values. -/
theorem parse_measurement_roundtrip (t rh : Int) :
    parse_measurement (measurement_message t rh) = some (t, rh) := by
  have hdata : (measurement_message t rh).data =
      "temperature=".data ++ (fmt1Chars t ++ (",humidity=".data ++ fmt1Chars rh)) := by
    simp [measurement_message, fmt1, data_append, List.append_assoc]
  have h2 := parseFixed1_fmt1Chars rh []
  rw [List.append_nil] at h2
  simp only [parse_measurement, hdata, stripPrefixChars_append,
    parseFixed1_fmt1Chars, h2]

/-- The full published measurement message parses back to its tenths
values. -/
theorem parse_published_roundtrip (cfg : Config) (t rh : Int) :
    parse_published_measurement cfg
      (mqtt_message cfg "measurement" (measurement_message t rh)) = some (t, rh) := by
  have hdata : (mqtt_message cfg "measurement" (measurement_message t rh)).data =
      (mqtt_message cfg "measurement" "").data ++ (measurement_message t rh).data := by
    simp [mqtt_message, data_append, List.append_assoc]
  simp only [parse_published_measurement, hdata, stripPrefixChars_append]
  show parse_measurement (String.mk (measurement_message t rh).data) = some (t, rh)
  exact parse_measurement_roundtrip t rh

/-- A rendered numeral has exactly one fractional digit: it ends in a dot
followed by one digit, and no dot occurs before that. -/
theorem fmt1Chars_one_fractional_digit (z : Int) :
    ∃ ds, fmt1Chars z = ds ++ ('.' :: [digitChar (z.natAbs % 10)]) ∧
      isDigitChar (digitChar (z.natAbs % 10)) = true ∧ ∀ c ∈ ds, ¬ (c = '.') := by
  refine ⟨(if z < 0 then ['-'] else []) ++ natDigits (z.natAbs / 10), ?_, ?_, ?_⟩
  · simp [fmt1Chars, List.append_assoc]
  · exact isDigitChar_digitChar _ (Nat.mod_lt _ (by omega))
  · intro c hc
    rcases List.mem_append.mp hc with hc | hc
    · intro he
      subst he
      by_cases hz : z < 0 <;> simp [hz] at hc
    · obtain ⟨cc, cs, hcs, hcdig, hcsdig, _⟩ := natDigits_cons (z.natAbs / 10)
      rw [hcs] at hc
      intro he
      subst he
      rcases List.mem_cons.mp hc with hh | hh
      · rw [← hh] at hcdig
        simp [isDigitChar] at hcdig
      · have := hcsdig _ hh
        simp [isDigitChar] at this

/-- C7: every published message is
`<category>,deviceId=<id>,deviceType=<type>,deviceVersion=<version> `
followed by the field set; the telemetry string fields (uptime, MAC, IP) are
rendered in double quotes; every numeric field is rendered with exactly one
fractional digit; and a formatted measurement message — bare or as a full
published message — parses back to its temperature and humidity at
one-decimal precision. -/
theorem measurement_roundtrip :
    (∀ (cfg : Config) (category message : String),
      mqtt_message cfg category message =
        category ++ ",deviceId=" ++ cfg.mqtt_client_id ++ ",deviceType=" ++
          cfg.device_type ++ ",deviceVersion=" ++ cfg.version ++ " " ++ message) ∧
    (∀ (uptime : String) (it : Int) (mac ip : String),
      telemetry_message uptime it mac ip =
        "uptime=\"" ++ uptime ++ "\",internal_temperature=" ++ fmt1 it ++
          ",MAC_address=\"" ++ mac ++ "\",IP_address=\"" ++ ip ++ "\"") ∧
    (∀ z : Int, ∃ ds, fmt1Chars z = ds ++ ('.' :: [digitChar (z.natAbs % 10)]) ∧
      isDigitChar (digitChar (z.natAbs % 10)) = true ∧ ∀ c ∈ ds, ¬ (c = '.')) ∧
    (∀ t rh : Int, parse_measurement (measurement_message t rh) = some (t, rh)) ∧
    (∀ (cfg : Config) (t rh : Int),
      parse_published_measurement cfg
        (mqtt_message cfg "measurement" (measurement_message t rh)) = some (t, rh)) :=
  ⟨fun _ _ _ => rfl, fun _ _ _ _ => rfl, fmt1Chars_one_fractional_digit,
    parse_measurement_roundtrip, parse_published_roundtrip⟩

/-! ## Claims about the boot path and the main loop -/

/-- C6: if the boot-time `connect()` to the broker fails, the program issues
exactly one hardware reset request and never attempts a publish call. -/
theorem connect_failure_resets_before_any_publish
    (cfg : Config) (mac ip : String) (envs : Nat → CycleEnv) (fuel : Nat) :
    (run_program cfg false mac ip envs fuel).count Event.resetE = 1 ∧
    ∀ m, Event.publishE m ∉ run_program cfg false mac ip envs fuel := by
  simp [run_program]

/-- C3: a failing `publish()` call aborts its cycle at the failing call (no
second publish, no wait-loop tick after it), and a raising iteration makes
the program run best-effort `disconnect()` followed by exactly one hardware
reset request, with nothing after the reset. -/
theorem publish_failure_stops_cycle :
    (∀ (cfg : Config) (mac ip : String) (env : CycleEnv),
      (env.pub1 = PubOutcome.fail →
        cycle cfg mac ip env =
          ([Event.publishE (mqtt_message cfg "telemetry"
              (telemetry_message env.uptime env.internal_temp mac ip))], true)) ∧
      (env.pub1 = PubOutcome.ok → env.pub2 = PubOutcome.fail →
        cycle cfg mac ip env =
          ([Event.publishE (mqtt_message cfg "telemetry"
              (telemetry_message env.uptime env.internal_temp mac ip)),
            Event.publishE (mqtt_message cfg "measurement"
              (measurement_message
                (if cfg.sensor_in_use then env.sensorReading else simulatedReading).t
                (if cfg.sensor_in_use then env.sensorReading else simulatedReading).rh))],
            true))) ∧
    ∀ (cfg : Config) (mac ip : String) (envs : Nat → CycleEnv) (fuel : Nat),
      (main_loop cfg mac ip envs fuel).2 = true →
        run_program cfg true mac ip envs fuel =
          (main_loop cfg mac ip envs fuel).1 ++ [Event.disconnectE, Event.resetE] ∧
        (run_program cfg true mac ip envs fuel).count Event.resetE = 1 := by
  refine ⟨fun cfg mac ip env => ⟨fun h1 => ?_, fun h1 h2 => ?_⟩,
    fun cfg mac ip envs fuel hr => ⟨?_, ?_⟩⟩
  · simp [cycle, mqtt_publish, h1]
  · simp [cycle, mqtt_publish, h1, h2]
  · simp [run_program, hr]
  · have h0 : (main_loop cfg mac ip envs fuel).1.count Event.resetE = 0 :=
      List.count_eq_zero.mpr (main_loop_no_reset fuel cfg mac ip envs)
    simp [run_program, hr, List.count_append, h0]

/-- Witness for C3: a failing telemetry publish in the first cycle. -/
theorem publish_failure_stops_cycle_witness :
    (cycle exampleConfig "28cdc1012345" "192.168.0.9" exampleEnvPubFail =
      ([Event.publishE (mqtt_message exampleConfig "telemetry"
          (telemetry_message "0:00:01:00" 271 "28cdc1012345" "192.168.0.9"))], true)) ∧
    run_program exampleConfig true "28cdc1012345" "192.168.0.9" (fun _ => exampleEnvPubFail) 1 =
      (main_loop exampleConfig "28cdc1012345" "192.168.0.9" (fun _ => exampleEnvPubFail) 1).1 ++
        [Event.disconnectE, Event.resetE] ∧
    (run_program exampleConfig true "28cdc1012345" "192.168.0.9"
        (fun _ => exampleEnvPubFail) 1).count Event.resetE = 1 := by
  refine ⟨(publish_failure_stops_cycle.1 exampleConfig "28cdc1012345" "192.168.0.9"
      exampleEnvPubFail).1 rfl, ?_, ?_⟩
  · exact (publish_failure_stops_cycle.2 exampleConfig "28cdc1012345" "192.168.0.9"
      (fun _ => exampleEnvPubFail) 1 (by decide)).1
  · exact (publish_failure_stops_cycle.2 exampleConfig "28cdc1012345" "192.168.0.9"
      (fun _ => exampleEnvPubFail) 1 (by decide)).2

/-- C8: a Publishing phase whose two publish calls both succeed makes exactly
two publish calls, the telemetry record first and the measurement record
second. -/
theorem publishing_phase_two_publishes (cfg : Config) (mac ip : String) (env : CycleEnv)
    (h1 : env.pub1 = PubOutcome.ok) (_h2 : env.pub2 = PubOutcome.ok) :
    List.filter isPublishB (cycle cfg mac ip env).1 =
      [Event.publishE (mqtt_message cfg "telemetry"
          (telemetry_message env.uptime env.internal_temp mac ip)),
       Event.publishE (mqtt_message cfg "measurement"
          (measurement_message
            (if cfg.sensor_in_use then env.sensorReading else simulatedReading).t
            (if cfg.sensor_in_use then env.sensorReading else simulatedReading).rh))] :=
  cycle_publish_events cfg mac ip env h1

/-- Witness for C8 on a concrete all-success cycle. -/
theorem publishing_phase_two_publishes_witness :
    List.filter isPublishB (cycle exampleConfig "28cdc1012345" "192.168.0.9" exampleEnvOk).1 =
      [Event.publishE (mqtt_message exampleConfig "telemetry"
          (telemetry_message "0:00:01:00" 271 "28cdc1012345" "192.168.0.9")),
       Event.publishE (mqtt_message exampleConfig "measurement"
          (measurement_message simulatedReading.t simulatedReading.rh))] :=
  publishing_phase_two_publishes exampleConfig "28cdc1012345" "192.168.0.9" exampleEnvOk
    rfl rfl

/-- C9: the formatted publish messages are a pure function of the category,
field-set inputs and device configuration: two cycles that agree on those
inputs emit byte-identical message strings, whatever their publish outcomes
or probe results. -/
theorem publish_format_deterministic (cfg : Config) (mac ip : String) (e1 e2 : CycleEnv)
    (hu : e1.uptime = e2.uptime) (hi : e1.internal_temp = e2.internal_temp)
    (hs : e1.sensorReading = e2.sensorReading)
    (h1 : e1.pub1 = PubOutcome.ok) (h2 : e2.pub1 = PubOutcome.ok) :
    List.filter isPublishB (cycle cfg mac ip e1).1 =
      List.filter isPublishB (cycle cfg mac ip e2).1 := by
  rw [cycle_publish_events cfg mac ip e1 h1, cycle_publish_events cfg mac ip e2 h2,
    hu, hi, hs]

/-- Witness for C9: two cycles with the same formatting inputs but different
publish outcomes and probe results emit identical messages. -/
theorem publish_format_deterministic_witness :
    List.filter isPublishB (cycle exampleConfig "28cdc1012345" "192.168.0.9" exampleEnvOk).1 =
      List.filter isPublishB (cycle exampleConfig "28cdc1012345" "192.168.0.9" exampleEnvOk2).1 :=
  publish_format_deterministic exampleConfig "28cdc1012345" "192.168.0.9"
    exampleEnvOk exampleEnvOk2 rfl rfl rfl rfl rfl

/-- C10: with `SENSOR_IN_USE` false, every iteration publishes the constant
measurement field set `temperature=21.0,humidity=50.0`, whatever the sensor
reading in the environment. -/
theorem simulated_measurement_constant (cfg : Config) (mac ip : String) (env : CycleEnv)
    (hs : cfg.sensor_in_use = false) (h1 : env.pub1 = PubOutcome.ok) :
    measurement_message simulatedReading.t simulatedReading.rh =
      "temperature=21.0,humidity=50.0" ∧
    List.filter isPublishB (cycle cfg mac ip env).1 =
      [Event.publishE (mqtt_message cfg "telemetry"
          (telemetry_message env.uptime env.internal_temp mac ip)),
       Event.publishE (mqtt_message cfg "measurement" "temperature=21.0,humidity=50.0")] := by
  have hm : measurement_message simulatedReading.t simulatedReading.rh =
      "temperature=21.0,humidity=50.0" := by decide
  refine ⟨hm, ?_⟩
  rw [cycle_publish_events cfg mac ip env h1, hs]
  simp [hm]

/-- Witness for C10 on a concrete cycle with a sensorless configuration. -/
theorem simulated_measurement_constant_witness :
    List.filter isPublishB (cycle exampleConfig "28cdc1012345" "192.168.0.9" exampleEnvOk).1 =
      [Event.publishE (mqtt_message exampleConfig "telemetry"
          (telemetry_message "0:00:01:00" 271 "28cdc1012345" "192.168.0.9")),
       Event.publishE (mqtt_message exampleConfig "measurement"
          "temperature=21.0,humidity=50.0")] :=
  (simulated_measurement_constant exampleConfig "28cdc1012345" "192.168.0.9" exampleEnvOk
    rfl rfl).2

end SensorNode
